import Mathlib

/-!
Shallow embedding of `src/backend/api.py` (Loreal_Datathon backend).

Python strings are modelled as Lean `String`; the Python string operations
used by the code (`strip`, `lower`, `split`, `startswith`, substring `in`,
`replace`, slicing, `len`) are implemented over the underlying character
list with Python semantics.  Floats are modelled as exact rationals `ℚ`.
The external libraries (sentence-transformers `model.encode`, sklearn
`cosine_similarity`, numpy `argmax`, pandas CSV loading, the Gemini LLM
client) are modelled at their interfaces: `encode` and the pairwise cosine
kernel are parameters of the evaluation environment, while their
exception-raising behaviour (sklearn raising on an empty input matrix,
`np.argmax` raising on an empty sequence, Python list indexing raising
`IndexError`) is made explicit with `Except`.
-/

/-- Python `str.strip()` default whitespace characters (ASCII range). -/
def pyIsSpace (c : Char) : Bool :=
  c = ' ' || c = '\t' || c = '\n' || c = '\r' || c = '\x0b' || c = '\x0c'

/-- Python `str.strip()` on a character list: drop whitespace at both ends. -/
def pyStrip (l : List Char) : List Char :=
  ((l.dropWhile pyIsSpace).reverse.dropWhile pyIsSpace).reverse

/-- Python substring test `needle in hay`. -/
def pyContains (needle : List Char) : List Char → Bool
  | [] => needle.isEmpty
  | c :: t => needle.isPrefixOf (c :: t) || pyContains needle t

/-- Python `str.split('\n')`: split on every newline, keeping empty pieces. -/
def pySplitNl : List Char → List (List Char)
  | [] => [[]]
  | c :: t =>
    match pySplitNl t with
    | [] => [[]]
    | r :: rs => if c = '\n' then [] :: r :: rs else (c :: r) :: rs

/-- Worker for `pyReplace`, structurally recursive on a fuel argument (the
fuel starts at the length of the list and never runs out, since every step
consumes at least one character; structural recursion keeps the definition
reducible by the kernel). -/
def pyReplaceAux (pat rep : List Char) : ℕ → List Char → List Char
  | _, [] => []
  | 0, l => l
  | fuel + 1, c :: t =>
    if pat ≠ [] ∧ pat.isPrefixOf (c :: t) then
      rep ++ pyReplaceAux pat rep fuel (t.drop (pat.length - 1))
    else
      c :: pyReplaceAux pat rep fuel t

/-- Python `str.replace(pat, rep)` (leftmost, non-overlapping; `pat ≠ ""`). -/
def pyReplace (pat rep : List Char) (l : List Char) : List Char :=
  pyReplaceAux pat rep l.length l

/-- `line.strip()` at the `String` level. -/
def strStrip (s : String) : String := String.mk (pyStrip s.toList)

/-- `line.lower()` (the source text is ASCII, matching `Char.toLower`). -/
def strLower (s : String) : String := String.mk (s.toList.map Char.toLower)

/-- Python `needle in hay` at the `String` level. -/
def strContains (needle hay : String) : Bool := pyContains needle.toList hay.toList

/-- Python `s.startswith(p)`. -/
def strStartsWith (p s : String) : Bool := p.toList.isPrefixOf s.toList

/-- Python `len(s)` (number of characters). -/
def strLen (s : String) : ℕ := s.toList.length

/-- Python slicing `s[n:]`. -/
def strDrop (n : ℕ) (s : String) : String := String.mk (s.toList.drop n)

/-- Python `s.replace(pat, rep)` at the `String` level. -/
def strReplace (pat rep s : String) : String :=
  String.mk (pyReplace pat.toList rep.toList s.toList)

/-- Python `s.split('\n')` at the `String` level. -/
def strSplitNl (s : String) : List String := (pySplitNl s.toList).map String.mk

/-- The structured analysis dictionary produced by `analyze_keyword_with_llm`
and `parse_llm_response_enhanced` (keys `future_trend`, `insights`,
`recommendations`). -/
structure LLMAnalysis where
  future_trend : String
  insights : List String
  recommendations : List String
deriving DecidableEq, Repr

/-- The mutable local state of the parsing loop in
`parse_llm_response_enhanced` (api.py lines 563-566): the three accumulators
plus the `current_section` tag (`None`, `"trend"`, `"insights"` or
`"recommendations"`). -/
structure ParseState where
  future_trend : String
  insights : List String
  recommendations : List String
  current_section : Option String
deriving DecidableEq, Repr

/-- One iteration of the `for line in lines` loop of
`parse_llm_response_enhanced` (api.py lines 568-601): section-tag detection
first (each tag line is consumed without contributing content), then content
extraction keyed on `current_section`. -/
def processLine (st : ParseState) (line : String) : ParseState :=
  let line_lower := strLower line
  if strContains "future trend" line_lower then
    { st with current_section := some "trend" }
  else if strContains "key insight" line_lower || strContains "insights:" line_lower then
    { st with current_section := some "insights" }
  else if strContains "recommend" line_lower then
    { st with current_section := some "recommendations" }
  else if st.current_section = some "trend" ∧ st.future_trend = "" then
    if 15 < strLen line ∧ strStartsWith "-" line = false then
      { st with future_trend := strStrip line }
    else st
  else if st.current_section = some "insights" then
    if strStartsWith "-" line then
      let clean_insight := strStrip (strDrop 1 line)
      if clean_insight ≠ "" ∧ 10 < strLen clean_insight then
        { st with insights := st.insights ++ [clean_insight] }
      else st
    else if 15 < strLen line ∧ st.insights.length < 3 ∧
        (strContains "insight" line_lower || strContains "recommendation" line_lower) = false then
      { st with insights := st.insights ++ [strStrip line] }
    else st
  else if st.current_section = some "recommendations" then
    if strStartsWith "-" line then
      let clean_rec := strStrip (strDrop 1 line)
      if clean_rec ≠ "" ∧ 10 < strLen clean_rec then
        { st with recommendations := st.recommendations ++ [clean_rec] }
      else st
    else if 15 < strLen line ∧ st.recommendations.length < 3 ∧
        (strContains "insight" line_lower || strContains "recommendation" line_lower) = false then
      { st with recommendations := st.recommendations ++ [strStrip line] }
    else st
  else st

/-- The cleaning step `response_text.replace('**', '').replace('*', '')`
(api.py line 560). -/
def cleanText (response_text : String) : String :=
  strReplace "*" "" (strReplace "**" "" response_text)

/-- The preprocessing into lines (api.py lines 560-561): clean the text,
split on newlines, strip each line and keep only the non-empty ones. -/
def parseLines (response_text : String) : List String :=
  ((strSplitNl (cleanText response_text)).map strStrip).filter (fun l => l ≠ "")

/-- The state after the extraction loop of `parse_llm_response_enhanced`
has consumed every line, starting from the initial state
`("", [], [], None)`. -/
def capturedState (response_text : String) : ParseState :=
  (parseLines response_text).foldl processLine ⟨"", [], [], none⟩

/-- The canned phase-driven trend sentences of the post-pass quality gate
(api.py lines 604-614): a case-insensitive search for the phase keywords in
the full (cleaned) response text, in the priority order
peaking/growing/emerging/decaying, with a generic final fallback. -/
def chooseFallbackTrend (cleaned : String) : String :=
  if strContains "peaking" (strLower cleaned) then
    "This keyword is approaching market saturation and may see declining momentum in the coming months"
  else if strContains "growing" (strLower cleaned) then
    "Strong upward trajectory suggests continued growth and increased market interest over the next quarter"
  else if strContains "emerging" (strLower cleaned) then
    "Early-stage trend with potential for significant growth as market awareness increases"
  else if strContains "decaying" (strLower cleaned) then
    "Downward trend indicates declining market interest and reduced content engagement"
  else
    "Market dynamics suggest evolving consumer interest patterns requiring strategic monitoring"

/-- `default_insights` of the quality gate (api.py lines 618-622). -/
def default_insights : List String :=
  ["Current engagement metrics indicate measurable audience interaction levels",
   "Velocity patterns reveal important momentum shifts in market attention",
   "Category positioning demonstrates competitive landscape opportunities"]

/-- `default_recommendations` of the quality gate (api.py lines 627-631). -/
def default_recommendations : List String :=
  ["Implement weekly monitoring of mention patterns and engagement rates",
   "Develop targeted content strategies aligned with current trend phase",
   "Analyze competitor activities within this keyword category"]

/-- `parse_llm_response_enhanced` (api.py lines 556-638): extraction loop,
then the quality gate (trend substitution, top-up of insights and
recommendations to 3 when fewer than 2 were captured, truncation to 3), then
the final dictionary.  Every operation of the Python body is total, so the
`except` branch of the surrounding `try` is unreachable and the body alone
is the model. -/
def parse_llm_response_enhanced (response_text : String) : LLMAnalysis :=
  let st := capturedState response_text
  let future_trend :=
    if st.future_trend = "" ∨
        strContains "based on current metrics, expect continued trend evolution"
          (strLower st.future_trend) then
      chooseFallbackTrend (cleanText response_text)
    else st.future_trend
  let insights :=
    if st.insights.length < 2 then
      st.insights ++ default_insights.take (3 - st.insights.length)
    else st.insights
  let recommendations :=
    if st.recommendations.length < 2 then
      st.recommendations ++ default_recommendations.take (3 - st.recommendations.length)
    else st.recommendations
  { future_trend := strStrip future_trend
    insights := insights.take 3
    recommendations := recommendations.take 3 }

/-- Round-half-to-even of the fraction `num / den` (for `den > 0`): the
rounding used by Python `round` and by `format`-style fixed-point
formatting, computed on the numerator and denominator directly. -/
def roundHalfEvenFrac (num den : ℤ) : ℤ :=
  let f := Int.fdiv num den
  let r := num - f * den
  if 2 * r < den then f
  else if den < 2 * r then f + 1
  else if f % 2 = 0 then f else f + 1

/-- Python `round(x, ndigits)` on the rational model of a float. -/
def pyRound (ndigits : ℕ) (x : ℚ) : ℚ :=
  (roundHalfEvenFrac (x.num * Int.ofNat (10 ^ ndigits)) (Int.ofNat x.den) : ℚ) /
    (10 ^ ndigits : ℚ)

/-- Left-pad a digit string with zeros to width `w`. -/
def natPadZeros (w : ℕ) (s : String) : String :=
  String.mk (List.replicate (w - s.length) '0') ++ s

/-- Python fixed-point float formatting `f"{x:.precf}"` on the rational
model of a float (`prec ≥ 1` in every use in api.py). -/
def fmtFixed (prec : ℕ) (x : ℚ) : String :=
  let n := roundHalfEvenFrac (x.num * Int.ofNat (10 ^ prec)) (Int.ofNat x.den)
  let a := n.natAbs
  let core := toString (a / 10 ^ prec) ++ "." ++ natPadZeros prec (toString (a % 10 ^ prec))
  if n < 0 then "-" ++ core else core

/-- `get_phase_description` (api.py lines 656-665): static dictionary
lookup with a templated default embedding the literal phase value. -/
def get_phase_description (phase : String) : String :=
  if phase = "Emerging" then
    "This keyword is in its early adoption phase with growing interest."
  else if phase = "Growing" then
    "This keyword is gaining momentum and popularity rapidly."
  else if phase = "Peaking" then
    "This keyword has reached its peak popularity and is widely discussed."
  else if phase = "Decaying" then
    "This keyword is declining in popularity and mentions."
  else if phase = "Stable" then
    "This keyword maintains consistent engagement over time."
  else
    "This keyword is in the " ++ phase ++ " phase."

/-- The dictionary returned by `analyze_keyword_with_llm` when the Gemini
client was never initialized (`if not llm`, api.py lines 483-488). -/
def no_llm_fallback : LLMAnalysis :=
  { future_trend := "AI analysis temporarily unavailable"
    insights := ["Manual trend analysis required", "Data shows current engagement patterns"]
    recommendations := ["Monitor velocity changes", "Track engagement trends"] }

/-- The dictionary returned by `analyze_keyword_with_llm` when the LLM
invocation raises (the `except` branch, api.py lines 540-554). -/
def llm_error_fallback : LLMAnalysis :=
  { future_trend := "Trend analysis indicates potential market evolution based on current metrics"
    insights :=
      ["Current engagement levels suggest active audience interest",
       "Velocity patterns indicate momentum changes in market attention",
       "Category positioning shows competitive landscape dynamics"]
    recommendations :=
      ["Monitor weekly mention patterns for early trend detection",
       "Track competitor engagement strategies in this category",
       "Adjust content strategy based on audience engagement feedback"] }

/-- The prompt f-string of `analyze_keyword_with_llm` (api.py lines 492-529;
the uniform leading indentation of the Python triple-quoted literal is
elided).  Uses `category.replace('_', ' ')`, `{velocity:.1f}` and
`{engagement_rate:.4f}` exactly as the source does. -/
def build_prompt (keyword category phase : String) (velocity engagement_rate : ℚ)
    (matched_keyword : String) : String :=
  "\nYou are a beauty industry trend analyst for L\x27Oréal. Analyze the following keyword data and provide clear, actionable insights.\n\n" ++
  "KEYWORD DATA:\n" ++
  "- User Input: \"" ++ keyword ++ "\"\n" ++
  "- Best Category Match: \"" ++ strReplace "_" " " category ++ "\"\n" ++
  "- Similar Keyword: \"" ++ matched_keyword ++ "\"\n" ++
  "- Trend Phase: " ++ phase ++ "\n" ++
  "- Velocity: " ++ fmtFixed 1 velocity ++ " mentions/month (3-month trend)\n" ++
  "- Engagement Rate: " ++ fmtFixed 4 engagement_rate ++ "\n\n" ++
  "METRICS EXPLAINED:\n" ++
  "- Velocity: Slope of mentions over last 3 months (positive = increasing, negative = decreasing)\n" ++
  "- Engagement Rate: Average user interaction score (likes + comments + shares) / views\n" ++
  "- Phase Classification:\n" ++
  "  * Emerging: Rising mentions, low engagement\n" ++
  "  * Growing: Rising mentions, high engagement\n" ++
  "  * Peaking: Slowing mentions, high engagement\n" ++
  "  * Decaying: Slowing mentions, low engagement\n\n" ++
  "RESPONSE FORMAT:\n" ++
  "Provide exactly 3 sections with clean, professional language:\n\n" ++
  "FUTURE TREND:\n" ++
  "[One clear sentence about expected trend direction for next 3-6 months based on the metrics]\n\n" ++
  "KEY INSIGHTS:\n" ++
  "- [Business insight 1]\n" ++
  "- [Business insight 2]\n" ++
  "- [Business insight 3]\n\n" ++
  "RECOMMENDATIONS:\n" ++
  "- [Actionable recommendation 1]\n" ++
  "- [Actionable recommendation 2]\n" ++
  "- [Actionable recommendation 3]\n\n" ++
  "Keep language professional, avoid asterisks, and focus on practical business value for beauty brands.\n"

/-- `analyze_keyword_with_llm` (api.py lines 481-554).  The global Gemini
client is modelled by `llm_available` (whether initialization succeeded)
and `llm_invoke` (the network call, whose raising is an `Except.error`). -/
def analyze_keyword_with_llm (llm_available : Bool)
    (llm_invoke : String → Except String String)
    (keyword category phase : String) (velocity engagement_rate : ℚ)
    (matched_keyword : String) : LLMAnalysis :=
  if llm_available = false then no_llm_fallback
  else
    match llm_invoke (build_prompt keyword category phase velocity engagement_rate matched_keyword) with
    | Except.ok analysis_text => parse_llm_response_enhanced analysis_text
    | Except.error _ => llm_error_fallback

/-- First index of the maximum of a list: the documented behaviour of
`np.argmax` ("In case of multiple occurrences of the maximum values, the
indices corresponding to the first occurrence are returned"). -/
def argmaxIdx : List ℚ → ℕ
  | [] => 0
  | [_] => 0
  | v :: w :: t =>
    if v < (w :: t).getD (argmaxIdx (w :: t)) 0 then argmaxIdx (w :: t) + 1 else 0

/-- `np.argmax`, which raises `ValueError` on an empty sequence. -/
def np_argmax (l : List ℚ) : Except String ℕ :=
  match l with
  | [] => Except.error "attempt to get argmax of an empty sequence"
  | _ :: _ => Except.ok (argmaxIdx l)

/-- An embedding vector (the elements of sentence-transformer outputs,
as exact rationals). -/
abbrev Vec := List ℚ

/-- The error message sklearn raises when `cosine_similarity` receives an
empty second argument. -/
def sklearn_empty_error : String :=
  "Found array with 0 sample(s) (shape=(0, 0)) while a minimum of 1 is required by check_pairwise_arrays."

/-- `cosine_similarity(user_embedding, M)[0]`: the row of similarities of
one query vector against every row of `M`, where the pairwise cosine kernel
itself is the environment parameter `cosSim`.  sklearn validates its inputs
and raises on an empty matrix. -/
def sklearn_cosine_similarity (cosSim : Vec → Vec → ℚ) (u : Vec) (M : List Vec) :
    Except String (List ℚ) :=
  if M.isEmpty then Except.error sklearn_empty_error
  else Except.ok (M.map (cosSim u))

/-- Python list indexing `l[i]`, which raises `IndexError` out of range. -/
def pyListGet {α : Type} (l : List α) (i : ℕ) : Except String α :=
  match l.get? i with
  | some v => Except.ok v
  | none => Except.error "list index out of range"

/-- One row of a per-category `third_layer_data/..._keyword_trend_phases.csv`
file (the columns read by `keyword_checker`). -/
structure KeywordRow where
  keyword : String
  phase : String
  velocity : ℚ
  engagement_rate : ℚ
deriving DecidableEq, Repr

/-- The JSON payload of a successful `/api/keyword-checker` response
(api.py lines 456-472). -/
structure MatchSuccess where
  user_keyword : String
  matched_category : String
  category_similarity : ℚ
  matched_keyword : String
  keyword_similarity : ℚ
  phase : String
  velocity : ℚ
  engagement_rate : ℚ
  velocity_description : String
  engagement_description : String
  phase_description : String
  future_trend : String
  insights : List String
  recommendations : List String
deriving DecidableEq, Repr

/-- The four response classes `keyword_checker` can produce: 400 validation
errors, the 404 partial-failure payload (which carries the already-computed
`category` and `category_similarity` fields), the catch-all 500, and the
200 success payload. -/
inductive ApiResponse where
  | badRequest (error : String)
  | notFound (error : String) (category : String) (category_similarity : ℚ)
  | serverError (error : String)
  | success (result : MatchSuccess)
deriving DecidableEq, Repr

/-- The process-wide context `keyword_checker` reads: the startup-loaded
category list and its parallel embedding list, the sentence-transformer
`model.encode`, the pairwise cosine kernel, the file system mapping a path
to the rows of the CSV stored there (`none` when the file does not exist),
and the Gemini client state. -/
structure MatchEnv where
  categories_list : List String
  category_embeddings : List Vec
  encode : String → Vec
  cosSim : Vec → Vec → ℚ
  fs : String → Option (List KeywordRow)
  llm_available : Bool
  llm_invoke : String → Except String String

/-- The body of the `try` block of `keyword_checker` after input validation
(api.py lines 401-475), with every operation that can raise made explicit
in `Except`: the two sklearn calls, the two `np.argmax` calls, Python list
indexing and `df.iloc` row access. -/
def keyword_checker_body (env : MatchEnv) (user_keyword : String) :
    Except String ApiResponse :=
  let user_embedding := env.encode user_keyword
  match sklearn_cosine_similarity env.cosSim user_embedding env.category_embeddings with
  | Except.error e => Except.error e
  | Except.ok similarities =>
  match np_argmax similarities with
  | Except.error e => Except.error e
  | Except.ok best_category_idx =>
  match pyListGet env.categories_list best_category_idx with
  | Except.error e => Except.error e
  | Except.ok best_category =>
  match pyListGet similarities best_category_idx with
  | Except.error e => Except.error e
  | Except.ok category_similarity =>
  let csv_filename := "third_layer_data/" ++ best_category ++ "_keyword_trend_phases.csv"
  match env.fs csv_filename with
  | none =>
      Except.ok (ApiResponse.notFound
        ("Data file not found for category: " ++ best_category)
        best_category category_similarity)
  | some keyword_df =>
  if keyword_df.isEmpty then
    Except.ok (ApiResponse.notFound
      ("No keyword data found for category: " ++ best_category)
      best_category category_similarity)
  else
  let category_keywords := keyword_df.map KeywordRow.keyword
  let category_keyword_embeddings := category_keywords.map env.encode
  match sklearn_cosine_similarity env.cosSim user_embedding category_keyword_embeddings with
  | Except.error e => Except.error e
  | Except.ok keyword_similarities =>
  match np_argmax keyword_similarities with
  | Except.error e => Except.error e
  | Except.ok best_keyword_idx =>
  match pyListGet category_keywords best_keyword_idx with
  | Except.error e => Except.error e
  | Except.ok best_keyword_match =>
  match pyListGet keyword_similarities best_keyword_idx with
  | Except.error e => Except.error e
  | Except.ok keyword_similarity =>
  match pyListGet keyword_df best_keyword_idx with
  | Except.error e => Except.error e
  | Except.ok keyword_data =>
  let llm_analysis := analyze_keyword_with_llm env.llm_available env.llm_invoke
    user_keyword best_category keyword_data.phase keyword_data.velocity
    keyword_data.engagement_rate best_keyword_match
  Except.ok (ApiResponse.success
    { user_keyword := user_keyword
      matched_category := best_category
      category_similarity := pyRound 3 category_similarity
      matched_keyword := best_keyword_match
      keyword_similarity := pyRound 3 keyword_similarity
      phase := keyword_data.phase
      velocity := keyword_data.velocity
      engagement_rate := keyword_data.engagement_rate
      velocity_description := fmtFixed 1 keyword_data.velocity ++ " mentions per month (past 3 months)"
      engagement_description := "Popularity score: " ++ fmtFixed 3 keyword_data.engagement_rate
      phase_description := get_phase_description keyword_data.phase
      future_trend := llm_analysis.future_trend
      insights := llm_analysis.insights
      recommendations := llm_analysis.recommendations })

/-- `keyword_checker` (api.py lines 389-479): request-body validation
(`body = none` models a request with no JSON body or no `keyword` key),
then the `try` body, with any raised exception caught by the blanket
`except` and turned into the generic 500 response. -/
def keyword_checker (env : MatchEnv) (body : Option String) : ApiResponse :=
  match body with
  | none => ApiResponse.badRequest "Keyword is required"
  | some keyword =>
    let user_keyword := strStrip keyword
    if user_keyword = "" then ApiResponse.badRequest "Keyword cannot be empty"
    else
      match keyword_checker_body env user_keyword with
      | Except.ok resp => resp
      | Except.error e => ApiResponse.serverError ("Internal server error: " ++ e)

/-- The `growth` field formatter of `get_category_breakdown` (api.py line
209): a leading plus only for strictly positive growth. -/
def breakdown_growth_field (growth_rate : ℚ) : String :=
  if 0 < growth_rate then "+" ++ fmtFixed 1 growth_rate ++ "%"
  else fmtFixed 1 growth_rate ++ "%"

/-- The category `change` formatter of `get_trend_analysis` (api.py line
286): a leading plus for non-negative average growth. -/
def trend_change_field (avg_growth : ℚ) : String :=
  if 0 ≤ avg_growth then "+" ++ fmtFixed 1 avg_growth ++ "%"
  else fmtFixed 1 avg_growth ++ "%"

/-- The per-keyword `growth` formatter of `get_trend_analysis` (api.py line
297): a leading plus for non-negative growth. -/
def trend_keyword_growth_field (growth_rate : ℚ) : String :=
  if 0 ≤ growth_rate then "+" ++ fmtFixed 1 growth_rate ++ "%"
  else fmtFixed 1 growth_rate ++ "%"

/-- The section-tag test of the parsing loop, as one predicate: a line is
consumed as a (case-insensitive) section header iff it contains one of the
four tag substrings of api.py lines 572-580. -/
def isTagLine (line : String) : Bool :=
  strContains "future trend" (strLower line) ||
  strContains "key insight" (strLower line) ||
  strContains "insights:" (strLower line) ||
  strContains "recommend" (strLower line)

/-- A raw LLM response with ten bullet lines under a KEY INSIGHTS header. -/
def tenBulletInput : String :=
  "KEY INSIGHTS:\n- bullet number one content\n- bullet number two content\n- bullet number three content\n- bullet number four content\n- bullet number five content\n- bullet number six content\n- bullet number seven content\n- bullet number eight content\n- bullet number nine content\n- bullet number ten content"

/-- A raw LLM response with exactly two bullets per bulleted section (the
bullet texts avoid the tag substrings, which would be consumed as section
headers). -/
def twoBulletInput : String :=
  "KEY INSIGHTS:\n- first finding content here\n- second finding content here\nRECOMMENDATIONS:\n- monitor velocity shifts weekly\n- expand tutorial partnerships"

/-- A well-formed three-section LLM response: trend header, one long
non-bulleted sentence, insights header, three bullets, recommendations
header, three bullets. -/
def wellFormedInput : String :=
  "FUTURE TREND:\nExpect steady interest over the coming quarter.\nKEY INSIGHTS:\n- audiences engage with tutorials\n- mentions rise month over month\n- searches cluster around serums\nRECOMMENDATIONS:\n- launch tutorial content soon\n- partner with skincare voices\n- track weekly mention counts"

/-- A concrete evaluation environment with a two-category index whose
per-category dataset files are all absent. -/
def sampleEnv : MatchEnv :=
  { categories_list := ["Skincare & Anti-Aging", "Makeup & Cosmetics"]
    category_embeddings := [[1], [2]]
    encode := fun _ => []
    cosSim := fun _ v => v.getD 0 0
    fs := fun _ => none
    llm_available := false
    llm_invoke := fun _ => Except.error "ServiceError" }

/-- A concrete environment in the state left by a failed
`load_categories()`: the category list and the embedding list are both
empty. -/
def emptyIndexEnv : MatchEnv :=
  { categories_list := []
    category_embeddings := []
    encode := fun _ => []
    cosSim := fun _ v => v.getD 0 0
    fs := fun _ => none
    llm_available := false
    llm_invoke := fun _ => Except.error "ServiceError" }

set_option maxRecDepth 20000

/-! ## Helper lemmas -/

theorem toList_append (a b : String) : (a ++ b).toList = a.toList ++ b.toList :=
  String.data_append a b

theorem pyStrip_cons_space (l : List Char) : pyStrip (' ' :: l) = pyStrip l := by
  unfold pyStrip
  rw [List.dropWhile_cons_of_pos (by decide)]

theorem strStrip_drop1_bullet (s : String) :
    strStrip (strDrop 1 ("- " ++ s)) = strStrip s := by
  unfold strDrop strStrip
  rw [toList_append]
  show String.mk (pyStrip (List.drop 1 ('-' :: ' ' :: s.toList))) = _
  rw [List.drop_one, List.tail_cons, pyStrip_cons_space]

theorem strStartsWith_bullet (s : String) : strStartsWith "-" ("- " ++ s) = true := by
  unfold strStartsWith
  rw [toList_append]
  rfl

theorem argmaxIdx_lt_length : ∀ l : List ℚ, l ≠ [] → argmaxIdx l < l.length := by
  intro l
  induction l with
  | nil => intro h; exact absurd rfl h
  | cons v t ih =>
    intro _
    cases t with
    | nil => simp [argmaxIdx]
    | cons w t' =>
      simp only [argmaxIdx]
      by_cases h : v < (w :: t').getD (argmaxIdx (w :: t')) 0
      · rw [if_pos h]
        exact Nat.succ_lt_succ (ih (by simp))
      · rw [if_neg h]
        simp

theorem argmaxIdx_is_max :
    ∀ (l : List ℚ) (j : ℕ), j < l.length → l.getD j 0 ≤ l.getD (argmaxIdx l) 0 := by
  intro l
  induction l with
  | nil => intro j h; simp at h
  | cons v t ih =>
    intro j hj
    cases t with
    | nil =>
      have : j = 0 := by simpa using Nat.lt_one_iff.mp (by simpa using hj)
      subst this
      simp [argmaxIdx]
    | cons w t' =>
      simp only [argmaxIdx]
      by_cases h : v < (w :: t').getD (argmaxIdx (w :: t')) 0
      · rw [if_pos h, List.getD_cons_succ]
        cases j with
        | zero => rw [List.getD_cons_zero]; exact le_of_lt h
        | succ k =>
          rw [List.getD_cons_succ]
          exact ih k (by simpa using hj)
      · rw [if_neg h, List.getD_cons_zero]
        push_neg at h
        cases j with
        | zero => rw [List.getD_cons_zero]
        | succ k =>
          rw [List.getD_cons_succ]
          exact le_trans (ih k (by simpa using hj)) h

theorem argmaxIdx_first :
    ∀ (l : List ℚ) (j : ℕ), j < argmaxIdx l → l.getD j 0 < l.getD (argmaxIdx l) 0 := by
  intro l
  induction l with
  | nil => intro j h; simp [argmaxIdx] at h
  | cons v t ih =>
    intro j hj
    cases t with
    | nil => simp [argmaxIdx] at hj
    | cons w t' =>
      simp only [argmaxIdx] at hj ⊢
      by_cases h : v < (w :: t').getD (argmaxIdx (w :: t')) 0
      · rw [if_pos h] at hj ⊢
        rw [List.getD_cons_succ]
        cases j with
        | zero => rw [List.getD_cons_zero]; exact h
        | succ k =>
          rw [List.getD_cons_succ]
          exact ih k (Nat.lt_of_succ_lt_succ hj)
      · rw [if_neg h] at hj
        exact absurd hj (Nat.not_lt_zero j)

theorem np_argmax_ok (l : List ℚ) (h : l ≠ []) : np_argmax l = Except.ok (argmaxIdx l) := by
  cases l with
  | nil => exact absurd rfl h
  | cons v t => rfl

theorem sklearn_ok (cosSim : Vec → Vec → ℚ) (u : Vec) (M : List Vec) (h : M ≠ []) :
    sklearn_cosine_similarity cosSim u M = Except.ok (M.map (cosSim u)) := by
  unfold sklearn_cosine_similarity
  rw [if_neg (by simpa [List.isEmpty_iff] using h)]

theorem pyListGet_eq_getD {α : Type} (d : α) :
    ∀ (l : List α) (i : ℕ), i < l.length → pyListGet l i = Except.ok (l.getD i d) := by
  intro l
  induction l with
  | nil => intro i h; simp at h
  | cons a t ih =>
    intro i hi
    cases i with
    | zero => rfl
    | succ k =>
      have := ih k (by simpa using hi)
      simpa [pyListGet, List.getD_cons_succ] using this

theorem isTagLine_false (line : String) (h : isTagLine line = false) :
    strContains "future trend" (strLower line) = false ∧
    strContains "key insight" (strLower line) = false ∧
    strContains "insights:" (strLower line) = false ∧
    strContains "recommend" (strLower line) = false := by
  simpa [isTagLine, and_assoc] using h

theorem processLine_future_header (st : ParseState) :
    processLine st "FUTURE TREND:" = { st with current_section := some "trend" } := by
  have h1 : strContains "future trend" (strLower "FUTURE TREND:") = true := by decide
  simp [processLine, h1]

theorem processLine_insights_header (st : ParseState) :
    processLine st "KEY INSIGHTS:" = { st with current_section := some "insights" } := by
  have h1 : strContains "future trend" (strLower "KEY INSIGHTS:") = false := by decide
  have h2 : strContains "key insight" (strLower "KEY INSIGHTS:") = true := by decide
  simp [processLine, h1, h2]

theorem processLine_recommendations_header (st : ParseState) :
    processLine st "RECOMMENDATIONS:" = { st with current_section := some "recommendations" } := by
  have h1 : strContains "future trend" (strLower "RECOMMENDATIONS:") = false := by decide
  have h2 : strContains "key insight" (strLower "RECOMMENDATIONS:") = false := by decide
  have h3 : strContains "insights:" (strLower "RECOMMENDATIONS:") = false := by decide
  have h4 : strContains "recommend" (strLower "RECOMMENDATIONS:") = true := by decide
  simp [processLine, h1, h2, h3, h4]

theorem processLine_trend_section (st : ParseState) (line : String)
    (htag : isTagLine line = false) (hsec : st.current_section = some "trend") :
    ∃ ft, processLine st line = { st with future_trend := ft } := by
  obtain ⟨h1, h2, h3, h4⟩ := isTagLine_false line htag
  obtain ⟨ft0, ins0, recs0, sec0⟩ := st
  simp only at hsec
  subst hsec
  by_cases hft : ft0 = ""
  · by_cases hcap : 15 < strLen line ∧ strStartsWith "-" line = false
    · exact ⟨strStrip line, by simp [processLine, h1, h2, h3, h4, hft, hcap.1, hcap.2]⟩
    · refine ⟨ft0, ?_⟩
      simp only [processLine, h1, h2, h3, h4]
      simp [hft, hcap]
  · refine ⟨ft0, ?_⟩
    simp [processLine, h1, h2, h3, h4, hft]

theorem processLine_insight_bullet (st : ParseState) (s : String)
    (hsec : st.current_section = some "insights")
    (htag : isTagLine ("- " ++ s) = false)
    (hstrip : strStrip s = s) (hlen : 10 < strLen s) :
    processLine st ("- " ++ s) = { st with insights := st.insights ++ [s] } := by
  obtain ⟨h1, h2, h3, h4⟩ := isTagLine_false _ htag
  have hclean : strStrip (strDrop 1 ("- " ++ s)) = s := by
    rw [strStrip_drop1_bullet, hstrip]
  have hne : s ≠ "" := by
    intro h
    rw [h] at hlen
    simp [strLen] at hlen
  simp [processLine, h1, h2, h3, h4, hsec, strStartsWith_bullet, hclean, hne, hlen]

theorem processLine_recommendation_bullet (st : ParseState) (s : String)
    (hsec : st.current_section = some "recommendations")
    (htag : isTagLine ("- " ++ s) = false)
    (hstrip : strStrip s = s) (hlen : 10 < strLen s) :
    processLine st ("- " ++ s) = { st with recommendations := st.recommendations ++ [s] } := by
  obtain ⟨h1, h2, h3, h4⟩ := isTagLine_false _ htag
  have hclean : strStrip (strDrop 1 ("- " ++ s)) = s := by
    rw [strStrip_drop1_bullet, hstrip]
  have hne : s ≠ "" := by
    intro h
    rw [h] at hlen
    simp [strLen] at hlen
  simp [processLine, h1, h2, h3, h4, hsec, strStartsWith_bullet, hclean, hne, hlen]

theorem foldl_insight_bullets :
    ∀ (l : List String) (st : ParseState),
      st.current_section = some "insights" →
      (∀ s ∈ l, isTagLine ("- " ++ s) = false ∧ strStrip s = s ∧ 10 < strLen s) →
      (l.map (fun s => "- " ++ s)).foldl processLine st =
        { st with insights := st.insights ++ l } := by
  intro l
  induction l with
  | nil => intro st _ _; simp
  | cons s t ih =>
    intro st hsec hall
    obtain ⟨hs, hrest⟩ := List.forall_mem_cons.mp hall
    rw [List.map_cons, List.foldl_cons,
      processLine_insight_bullet st s hsec hs.1 hs.2.1 hs.2.2,
      ih _ (by simp [hsec]) hrest]
    simp

theorem foldl_recommendation_bullets :
    ∀ (l : List String) (st : ParseState),
      st.current_section = some "recommendations" →
      (∀ s ∈ l, isTagLine ("- " ++ s) = false ∧ strStrip s = s ∧ 10 < strLen s) →
      (l.map (fun s => "- " ++ s)).foldl processLine st =
        { st with recommendations := st.recommendations ++ l } := by
  intro l
  induction l with
  | nil => intro st _ _; simp
  | cons s t ih =>
    intro st hsec hall
    obtain ⟨hs, hrest⟩ := List.forall_mem_cons.mp hall
    rw [List.map_cons, List.foldl_cons,
      processLine_recommendation_bullet st s hsec hs.1 hs.2.1 hs.2.2,
      ih _ (by simp [hsec]) hrest]
    simp

/-! ## Claim theorems -/

/-- C1 counterexample: the fallback returned when the LLM service was never
initialized has only 2 insights and 2 recommendations, not 3, so it does
not satisfy the structural contract the claim states. -/
theorem no_llm_fallback_two_items :
    analyze_keyword_with_llm false (fun _ => Except.error "ServiceError")
      "glow serum" "Skincare & Anti-Aging" "Growing" 12 1 "hyaluronic acid" = no_llm_fallback ∧
    no_llm_fallback.insights.length = 2 ∧
    no_llm_fallback.recommendations.length = 2 ∧
    ¬ no_llm_fallback.insights.length = 3 ∧
    ¬ no_llm_fallback.recommendations.length = 3 := by
  decide

/-- C1 amended: both NarrativeGenerator fallbacks have a non-empty
future_trend sentence; the invocation-failure fallback has exactly 3
insights and 3 recommendations, but the never-initialized fallback has
exactly 2 of each. -/
theorem llm_fallbacks_structure :
    no_llm_fallback.future_trend ≠ "" ∧
    no_llm_fallback.insights.length = 2 ∧
    no_llm_fallback.recommendations.length = 2 ∧
    llm_error_fallback.future_trend ≠ "" ∧
    llm_error_fallback.insights.length = 3 ∧
    llm_error_fallback.recommendations.length = 3 ∧
    (∀ inv k c p v e m,
      analyze_keyword_with_llm false inv k c p v e m = no_llm_fallback) ∧
    (∀ (inv : String → Except String String) k c p v e m err,
      inv (build_prompt k c p v e m) = Except.error err →
      analyze_keyword_with_llm true inv k c p v e m = llm_error_fallback) := by
  refine ⟨by decide, by decide, by decide, by decide, by decide, by decide, ?_, ?_⟩
  · intro inv k c p v e m
    rfl
  · intro inv k c p v e m err h
    simp [analyze_keyword_with_llm, h]

/-- Witness for `llm_fallbacks_structure`: a concrete invocation that
raises lands on the invocation-failure fallback. -/
theorem llm_fallbacks_structure_witness :
    ((fun _ => Except.error "boom" : String → Except String String)
        (build_prompt "glow serum" "Skincare" "Growing" 12 1 "serum") = Except.error "boom") ∧
    analyze_keyword_with_llm true (fun _ => Except.error "boom")
      "glow serum" "Skincare" "Growing" 12 1 "serum" = llm_error_fallback :=
  ⟨rfl, llm_fallbacks_structure.2.2.2.2.2.2.2
    (fun _ => Except.error "boom") "glow serum" "Skincare" "Growing" 12 1 "serum" "boom" rfl⟩

/-- C6: the ResponseParser applied to the empty string returns the generic
canned trend sentence (non-empty) and exactly the 3 canned insights and 3
canned recommendations from the fallback top-up. -/
theorem parse_empty_string_fallback :
    parse_llm_response_enhanced "" =
      { future_trend := "Market dynamics suggest evolving consumer interest patterns requiring strategic monitoring"
        insights := default_insights
        recommendations := default_recommendations } ∧
    (parse_llm_response_enhanced "").future_trend ≠ "" ∧
    (parse_llm_response_enhanced "").insights.length = 3 ∧
    (parse_llm_response_enhanced "").recommendations.length = 3 := by
  decide

/-- C4: for every input text the ResponseParser returns at most 3 insights
and at most 3 recommendations, and the concrete input with 10 bullet lines
under a KEY INSIGHTS header yields exactly 3 insights. -/
theorem parser_caps_at_three :
    (∀ text, (parse_llm_response_enhanced text).insights.length ≤ 3 ∧
      (parse_llm_response_enhanced text).recommendations.length ≤ 3) ∧
    (parse_llm_response_enhanced tenBulletInput).insights.length = 3 := by
  constructor
  · intro text
    constructor <;>
      · simp only [parse_llm_response_enhanced, List.length_take]
        omega
  · decide

/-- C10: when the extraction loop captures exactly 2 insights (or exactly 2
recommendations), the returned list has exactly 2 items: the top-up to 3
only fires when fewer than 2 were captured. -/
theorem two_captured_stay_two (text : String) :
    ((capturedState text).insights.length = 2 →
      (parse_llm_response_enhanced text).insights.length = 2) ∧
    ((capturedState text).recommendations.length = 2 →
      (parse_llm_response_enhanced text).recommendations.length = 2) := by
  constructor <;> intro h <;>
    simp [parse_llm_response_enhanced, h, List.length_take]

/-- Witness for `two_captured_stay_two`: a response with exactly two
bullets per section keeps exactly two items per section. -/
theorem two_captured_stay_two_witness :
    (capturedState twoBulletInput).insights.length = 2 ∧
    (parse_llm_response_enhanced twoBulletInput).insights.length = 2 ∧
    (capturedState twoBulletInput).recommendations.length = 2 ∧
    (parse_llm_response_enhanced twoBulletInput).recommendations.length = 2 :=
  ⟨by decide, (two_captured_stay_two twoBulletInput).1 (by decide),
   by decide, (two_captured_stay_two twoBulletInput).2 (by decide)⟩

/-- C9: `keyword_checker` rejects a missing keyword and any keyword that is
empty after trimming with the 400-class validation responses; in
particular both `""` and `"   "` are rejected as empty. -/
theorem keyword_checker_rejects_empty (env : MatchEnv) (kw : String)
    (h : strStrip kw = "") :
    keyword_checker env (some kw) = ApiResponse.badRequest "Keyword cannot be empty" ∧
    keyword_checker env none = ApiResponse.badRequest "Keyword is required" ∧
    keyword_checker env (some "") = ApiResponse.badRequest "Keyword cannot be empty" ∧
    keyword_checker env (some "   ") = ApiResponse.badRequest "Keyword cannot be empty" := by
  have h0 : strStrip "" = "" := by decide
  have h3 : strStrip "   " = "" := by decide
  exact ⟨by simp [keyword_checker, h], rfl,
    by simp [keyword_checker, h0], by simp [keyword_checker, h3]⟩

/-- Witness for `keyword_checker_rejects_empty` at a concrete environment
and a concrete whitespace keyword. -/
theorem keyword_checker_rejects_empty_witness :
    strStrip " " = "" ∧
    keyword_checker sampleEnv (some " ") = ApiResponse.badRequest "Keyword cannot be empty" :=
  ⟨by decide, (keyword_checker_rejects_empty sampleEnv " " (by decide)).1⟩

/-- C8 counterexample: in `get_category_breakdown` a zero growth rate is
formatted without the leading plus sign ("0.0%", not "+0.0%"), because the
source tests `growth_rate > 0`, while `get_trend_analysis` formats zero
with the plus. -/
theorem breakdown_zero_growth_no_plus :
    breakdown_growth_field 0 = "0.0%" ∧
    breakdown_growth_field 0 ≠ "+0.0%" ∧
    trend_change_field 0 = "+0.0%" := by
  decide

/-- C8 amended: the trend-analysis formatters put an explicit plus exactly
on non-negative values, while the category-breakdown formatter puts it
exactly on strictly positive values, so zero is formatted without a plus
there. -/
theorem growth_sign_formatting (x : ℚ) :
    (0 ≤ x → trend_change_field x = "+" ++ fmtFixed 1 x ++ "%") ∧
    (x < 0 → trend_change_field x = fmtFixed 1 x ++ "%") ∧
    (0 ≤ x → trend_keyword_growth_field x = "+" ++ fmtFixed 1 x ++ "%") ∧
    (x < 0 → trend_keyword_growth_field x = fmtFixed 1 x ++ "%") ∧
    (0 < x → breakdown_growth_field x = "+" ++ fmtFixed 1 x ++ "%") ∧
    (x ≤ 0 → breakdown_growth_field x = fmtFixed 1 x ++ "%") := by
  refine ⟨fun h => ?_, fun h => ?_, fun h => ?_, fun h => ?_, fun h => ?_, fun h => ?_⟩
  · rw [trend_change_field, if_pos h]
  · rw [trend_change_field, if_neg (not_le.mpr h)]
  · rw [trend_keyword_growth_field, if_pos h]
  · rw [trend_keyword_growth_field, if_neg (not_le.mpr h)]
  · rw [breakdown_growth_field, if_pos h]
  · rw [breakdown_growth_field, if_neg (not_lt.mpr h)]

/-- Witness for `growth_sign_formatting` at concrete values. -/
theorem growth_sign_formatting_witness :
    (0 : ℚ) ≤ 0 ∧ trend_change_field 0 = "+" ++ fmtFixed 1 0 ++ "%" ∧
    (0 : ℚ) ≤ 0 ∧ breakdown_growth_field 0 = fmtFixed 1 0 ++ "%" :=
  ⟨le_refl 0, (growth_sign_formatting 0).1 (le_refl 0),
   le_refl 0, (growth_sign_formatting 0).2.2.2.2.2 (le_refl 0)⟩

/-- C2 counterexample: with the empty index left by a failed
`load_categories()`, a match query is answered by the blanket handler with
a generic 500 internal-server-error payload whose message does not contain
"no category available". -/
theorem empty_index_counterexample :
    keyword_checker emptyIndexEnv (some "glow serum") =
      ApiResponse.serverError ("Internal server error: " ++ sklearn_empty_error) ∧
    strContains "no category available"
      (strLower ("Internal server error: " ++ sklearn_empty_error)) = false := by
  decide

/-- C2 amended: when the category index is empty, every match query with a
non-empty keyword is answered with the generic 500 internal-server-error
response (the raised sklearn error is caught by the blanket handler), not
with a "no category available" report; the process does not crash. -/
theorem empty_index_generic_500 (env : MatchEnv) (kw : String)
    (hempty : env.category_embeddings = []) (hkw : strStrip kw ≠ "") :
    keyword_checker env (some kw) =
      ApiResponse.serverError ("Internal server error: " ++ sklearn_empty_error) := by
  simp [keyword_checker, hkw, keyword_checker_body, hempty, sklearn_cosine_similarity]

/-- Witness for `empty_index_generic_500` at a concrete empty-index
environment. -/
theorem empty_index_generic_500_witness :
    emptyIndexEnv.category_embeddings = [] ∧ strStrip "lipstick" ≠ "" ∧
    keyword_checker emptyIndexEnv (some "lipstick") =
      ApiResponse.serverError ("Internal server error: " ++ sklearn_empty_error) :=
  ⟨rfl, by decide, empty_index_generic_500 emptyIndexEnv "lipstick" rfl (by decide)⟩

/-- C3: for every query vector and non-empty index, the category matching
stage computes the cosine-similarity row and `np.argmax` selects an index
attaining the maximum, with ties broken by the lowest original index
(first-seen wins); `keyword_checker` applies the same `np_argmax` to the
keyword similarities of the matched category (api.py lines 406 and 438),
so the same first-index tie-break rule governs keyword matching. -/
theorem match_selects_first_argmax (cosSim : Vec → Vec → ℚ) (u : Vec)
    (M : List Vec) (sims : List ℚ) (hM : M ≠ []) (hsims : sims = M.map (cosSim u)) :
    sklearn_cosine_similarity cosSim u M = Except.ok sims ∧
    ∃ i, np_argmax sims = Except.ok i ∧ i < sims.length ∧
      (∀ j, j < sims.length → sims.getD j 0 ≤ sims.getD i 0) ∧
      (∀ j, j < sims.length → sims.getD i 0 ≤ sims.getD j 0 → i ≤ j) := by
  have hne : sims ≠ [] := by
    rw [hsims]
    simpa using hM
  refine ⟨by rw [hsims]; exact sklearn_ok cosSim u M hM,
    argmaxIdx sims, np_argmax_ok sims hne, argmaxIdx_lt_length sims hne,
    fun j hj => argmaxIdx_is_max sims j hj, ?_⟩
  intro j hj hle
  by_contra hlt
  push_neg at hlt
  exact absurd hle (not_le.mpr (argmaxIdx_first sims j hlt))

/-- Witness for `match_selects_first_argmax` on a four-row index with a
tied maximum: the selected index is the first one attaining it. -/
theorem match_selects_first_argmax_witness :
    (([[1], [3], [3], [2]] : List Vec) ≠ [] ∧
      ([1, 3, 3, 2] : List ℚ) =
        ([[1], [3], [3], [2]] : List Vec).map ((fun _ v => v.getD 0 0) ([] : Vec))) ∧
    (sklearn_cosine_similarity (fun _ v => v.getD 0 0) [] [[1], [3], [3], [2]] =
        Except.ok [1, 3, 3, 2] ∧
      ∃ i, np_argmax [1, 3, 3, 2] = Except.ok i ∧ i < ([1, 3, 3, 2] : List ℚ).length ∧
        (∀ j, j < ([1, 3, 3, 2] : List ℚ).length →
          ([1, 3, 3, 2] : List ℚ).getD j 0 ≤ ([1, 3, 3, 2] : List ℚ).getD i 0) ∧
        (∀ j, j < ([1, 3, 3, 2] : List ℚ).length →
          ([1, 3, 3, 2] : List ℚ).getD i 0 ≤ ([1, 3, 3, 2] : List ℚ).getD j 0 → i ≤ j)) :=
  ⟨⟨by simp, rfl⟩,
    match_selects_first_argmax (fun _ v => v.getD 0 0) [] [[1], [3], [3], [2]]
      [1, 3, 3, 2] (by simp) rfl⟩

/-- C7: when the matched category's dataset file does not exist or has
zero rows, the match is answered with the 404 partial-failure payload that
preserves the already-computed category name and (unrounded) category
similarity, instead of crashing or reaching the 500 handler. -/
theorem missing_dataset_partial_failure (env : MatchEnv) (kw cat : String)
    (hkw : strStrip kw ≠ "") (hne : env.category_embeddings ≠ [])
    (hcat : env.categories_list.get?
        (argmaxIdx (env.category_embeddings.map (env.cosSim (env.encode (strStrip kw))))) =
      some cat)
    (hfs : env.fs ("third_layer_data/" ++ cat ++ "_keyword_trend_phases.csv") = none ∨
           env.fs ("third_layer_data/" ++ cat ++ "_keyword_trend_phases.csv") = some []) :
    ∃ msg, keyword_checker env (some kw) =
      ApiResponse.notFound msg cat
        ((env.category_embeddings.map (env.cosSim (env.encode (strStrip kw)))).getD
          (argmaxIdx (env.category_embeddings.map (env.cosSim (env.encode (strStrip kw))))) 0) := by
  have hsne : env.category_embeddings.map (env.cosSim (env.encode (strStrip kw))) ≠ [] := by
    simpa using hne
  have hlt := argmaxIdx_lt_length _ hsne
  have hcat' : pyListGet env.categories_list
      (argmaxIdx (env.category_embeddings.map (env.cosSim (env.encode (strStrip kw))))) =
      Except.ok cat := by
    unfold pyListGet
    rw [hcat]
  simp only [keyword_checker]
  rw [if_neg hkw]
  simp only [keyword_checker_body,
    sklearn_ok env.cosSim (env.encode (strStrip kw)) env.category_embeddings hne,
    np_argmax_ok _ hsne, hcat', pyListGet_eq_getD (0 : ℚ) _ _ hlt]
  rcases hfs with hfs | hfs
  · rw [hfs]
    exact ⟨_, rfl⟩
  · rw [hfs]
    exact ⟨_, rfl⟩

/-- Witness for `missing_dataset_partial_failure`: in `sampleEnv` the
query matches the second category, whose dataset file is absent, and the
404 payload preserves the category and its similarity. -/
theorem missing_dataset_partial_failure_witness :
    (strStrip "glow serum" ≠ "" ∧ sampleEnv.category_embeddings ≠ [] ∧
      sampleEnv.categories_list.get?
        (argmaxIdx (sampleEnv.category_embeddings.map
          (sampleEnv.cosSim (sampleEnv.encode (strStrip "glow serum"))))) =
        some "Makeup & Cosmetics" ∧
      sampleEnv.fs ("third_layer_data/" ++ "Makeup & Cosmetics" ++ "_keyword_trend_phases.csv") = none) ∧
    ∃ msg, keyword_checker sampleEnv (some "glow serum") =
      ApiResponse.notFound msg "Makeup & Cosmetics"
        ((sampleEnv.category_embeddings.map
          (sampleEnv.cosSim (sampleEnv.encode (strStrip "glow serum")))).getD
          (argmaxIdx (sampleEnv.category_embeddings.map
            (sampleEnv.cosSim (sampleEnv.encode (strStrip "glow serum"))))) 0) :=
  ⟨⟨by decide, by simp [sampleEnv], by decide, rfl⟩,
    missing_dataset_partial_failure sampleEnv "glow serum" "Makeup & Cosmetics"
      (by decide) (by simp [sampleEnv]) (by decide) (Or.inl rfl)⟩

/-- C5: for every input whose preprocessed lines form a well-formed
three-section response (FUTURE TREND header, one long non-bulleted trend
sentence, KEY INSIGHTS header, bulleted items, RECOMMENDATIONS header,
bulleted items; each bullet remainder trimmed, longer than 10 characters
and free of the tag substrings), the parser returns exactly the bulleted
items verbatim with the bullet marker stripped, in input order, capped at
3 per section. -/
theorem well_formed_sections_verbatim (text trend : String) (ins recs : List String)
    (hpre : parseLines text =
      ["FUTURE TREND:", trend, "KEY INSIGHTS:"] ++ ins.map (fun s => "- " ++ s) ++
      ["RECOMMENDATIONS:"] ++ recs.map (fun s => "- " ++ s))
    (htrend : isTagLine trend = false ∧ 15 < strLen trend ∧ strStartsWith "-" trend = false)
    (hins : ∀ s ∈ ins, isTagLine ("- " ++ s) = false ∧ strStrip s = s ∧ 10 < strLen s)
    (hrecs : ∀ s ∈ recs, isTagLine ("- " ++ s) = false ∧ strStrip s = s ∧ 10 < strLen s)
    (hcount : 2 ≤ ins.length ∧ 2 ≤ recs.length) :
    (parse_llm_response_enhanced text).insights = ins.take 3 ∧
    (parse_llm_response_enhanced text).recommendations = recs.take 3 := by
  obtain ⟨ft, hft⟩ := processLine_trend_section ⟨"", [], [], some "trend"⟩ trend htrend.1 rfl
  have h1 : capturedState text =
      List.foldl processLine ⟨"", [], [], some "trend"⟩
        (trend :: "KEY INSIGHTS:" ::
          (ins.map (fun s => "- " ++ s) ++
            "RECOMMENDATIONS:" :: recs.map (fun s => "- " ++ s))) := by
    unfold capturedState
    rw [hpre]
    simp only [List.cons_append, List.nil_append, List.append_assoc, List.singleton_append]
    rw [List.foldl_cons, processLine_future_header]
  have h2 : capturedState text =
      List.foldl processLine ⟨ft, [], [], some "insights"⟩
        (ins.map (fun s => "- " ++ s) ++
          "RECOMMENDATIONS:" :: recs.map (fun s => "- " ++ s)) := by
    rw [h1, List.foldl_cons, hft, List.foldl_cons, processLine_insights_header]
  have h3 : capturedState text =
      List.foldl processLine ⟨ft, ins, [], some "recommendations"⟩
        (recs.map (fun s => "- " ++ s)) := by
    rw [h2, List.foldl_append, foldl_insight_bullets ins ⟨ft, [], [], some "insights"⟩ rfl hins,
      List.foldl_cons, processLine_recommendations_header]
    rfl
  have h4 : capturedState text = ⟨ft, ins, recs, some "recommendations"⟩ := by
    rw [h3, foldl_recommendation_bullets recs ⟨ft, ins, [], some "recommendations"⟩ rfl hrecs]
    rfl
  have hi : ¬ ins.length < 2 := by omega
  have hr : ¬ recs.length < 2 := by omega
  constructor <;> simp [parse_llm_response_enhanced, h4, hi, hr]

/-- Witness for `well_formed_sections_verbatim`: the concrete well-formed
three-section response is parsed into exactly its bullets, in order. -/
theorem well_formed_sections_verbatim_witness :
    (parseLines wellFormedInput =
      ["FUTURE TREND:", "Expect steady interest over the coming quarter.", "KEY INSIGHTS:"] ++
        (["audiences engage with tutorials", "mentions rise month over month",
          "searches cluster around serums"].map (fun s => "- " ++ s)) ++
        ["RECOMMENDATIONS:"] ++
        (["launch tutorial content soon", "partner with skincare voices",
          "track weekly mention counts"].map (fun s => "- " ++ s))) ∧
    (parse_llm_response_enhanced wellFormedInput).insights =
      ["audiences engage with tutorials", "mentions rise month over month",
       "searches cluster around serums"] ∧
    (parse_llm_response_enhanced wellFormedInput).recommendations =
      ["launch tutorial content soon", "partner with skincare voices",
       "track weekly mention counts"] := by
  refine ⟨by decide, ?_⟩
  have h := well_formed_sections_verbatim wellFormedInput
    "Expect steady interest over the coming quarter."
    ["audiences engage with tutorials", "mentions rise month over month",
     "searches cluster around serums"]
    ["launch tutorial content soon", "partner with skincare voices",
     "track weekly mention counts"]
    (by decide) (by decide) (by decide) (by decide) (by decide)
  simpa using h
